import Mathlib

/-!
Verification development for the recording / recording-report slice of the
WebexPythonSDK client library.

The embedding covers the two source modules:
* `webexteamssdk/api/recording_report.py` — the `RecordingReportAPI` methods
  `access_summary` (a paginated, restartable lazy sequence) and
  `access_detail` (a single fetch).
* `webexteamssdk/models/mixins/recording.py` — the JSON-backed property
  accessors of `RecordingBasicPropertiesMixin` and
  `RecordingReportBasicPropertiesMixin`.

Collaborators that the two modules import but whose code is outside the
covered sources (`check_type`, `dict_from_items_with_values`, the pagination
generator `RestSession.get_items`, the `generator_container` decorator and
`WebexTeamsDateTime.strptime`) are modelled from the repository
specification; every such definition carries a doc comment starting with
`Modelled from the spec:`.
-/

set_option maxRecDepth 4096

namespace WebexSDK

/-- The Python runtime values this API slice manipulates: `None`
(which is also what the JSON value `null` deserializes to), booleans,
integers, strings, lists of strings (e.g. `integrationTags`), and the
date-time objects produced by `WebexTeamsDateTime.strptime`. -/
inductive PyValue where
  | none
  | bool (b : Bool)
  | int (n : Int)
  | str (s : String)
  | list (l : List String)
  | datetime (s : String)
deriving DecidableEq, Repr

/-- Python truthiness of a `PyValue` (the `if created:` tests in the
mixins): `None`, `False`, `0`, `""` and `[]` are falsy, everything else
(including any date-time object) is truthy. -/
def pyTruthy : PyValue → Bool
  | .none => false
  | .bool b => b
  | .int n => n != 0
  | .str s => s != ""
  | .list l => !l.isEmpty
  | .datetime _ => true

/-- The Python types the two API methods validate against: `int` (for
`max`) and `basestring` (which is `str` under Python 3). -/
inductive PyType where
  | int
  | str
deriving DecidableEq, Repr

/-- Python `isinstance`.  Note that `bool` is a subclass of `int` in
Python, so a boolean passes an `int` check. -/
def isInstance : PyValue → PyType → Bool
  | .int _, .int => true
  | .bool _, .int => true
  | .str _, .str => true
  | _, _ => false

/-- Modelled from the spec: `check_type` from `webexteamssdk.utils` is not
among the covered sources.  The spec describes it as raising a type
validation error synchronously when a caller-supplied parameter's
shape/type is wrong, with `optional=True` additionally accepting `None`.
This returns `true` exactly when no error is raised. -/
def check_type (v : PyValue) (t : PyType) (optional : Bool) : Bool :=
  (optional && v == PyValue.none) || isInstance v t

/-- Association lists standing for Python `dict`s with string keys. -/
abbrev PyDict := List (String × PyValue)

/-- Lookup of a key in a `PyDict`, returning the first binding
(`PyDict`s built by `pySet` keep keys unique, like Python dicts). -/
def lookupKey : PyDict → String → Option PyValue
  | [], _ => Option.none
  | kv :: rest, k => if kv.1 = k then some kv.2 else lookupKey rest k

/-- Python `d[k] = v`: replace the binding in place if the key exists,
otherwise append the new binding (Python dicts preserve insertion order). -/
def pySet : PyDict → String → PyValue → PyDict
  | [], k, v => [(k, v)]
  | kv :: rest, k, v => if kv.1 = k then (k, v) :: rest else kv :: pySet rest k v

/-- Insert every binding of `items` whose value is not `None` into `acc`,
in order. -/
def insertItems (acc : PyDict) (items : PyDict) : PyDict :=
  items.foldl (fun a kv => if kv.2 = PyValue.none then a else pySet a kv.1 kv.2) acc

/-- Modelled from the spec: `dict_from_items_with_values` from
`webexteamssdk.utils` is not among the covered sources.  The spec says the
parameter mapping omits parameters whose value is absent and passes
unrecognized extra keyword parameters through verbatim: the function merges
the given dictionaries in order, dropping every item whose value is `None`. -/
def dict_from_items_with_values (dicts : List PyDict) : PyDict :=
  dicts.foldl insertItems []

/-- Python `dict.get(k)` as used by `self._json_data.get(...)` in the
mixins: `None` when the key is absent, the stored value otherwise (a JSON
`null` field is stored as `None`, so absent and null both give `None`). -/
def dictGet (d : PyDict) (k : String) : PyValue :=
  (lookupKey d k).getD PyValue.none

namespace WebexTeamsDateTime

/-- Modelled from the spec: `WebexTeamsDateTime.strptime` from
`webexteamssdk.utils` is not among the covered sources.  The spec
describes it as parsing an ISO 8601 compliant string into a date-time
object; it gives no failure behavior, so the model is total (a non-string
argument, which the spec never produces, maps to an unspecified
date-time). -/
def strptime : PyValue → PyValue
  | .str s => .datetime s
  | _ => .datetime ""

end WebexTeamsDateTime

/-- A JSON-backed record (`self._json_data`). -/
abbrev Record := PyDict

namespace RecordingBasicPropertiesMixin

/-- `return self._json_data.get("id")` -/
def id (d : Record) : PyValue := dictGet d "id"

/-- `return self._json_data.get("meetingId")` -/
def meetingId (d : Record) : PyValue := dictGet d "meetingId"

/-- `return self._json_data.get("scheduledMeetingId")` -/
def scheduledMeetingId (d : Record) : PyValue := dictGet d "scheduledMeetingId"

/-- `return self._json_data.get("topic")` -/
def topic (d : Record) : PyValue := dictGet d "topic"

/-- `return self._json_data.get("meetingSeriesId")` -/
def meetingSeriesId (d : Record) : PyValue := dictGet d "meetingSeriesId"

/-- `created = self._json_data.get("createTime"); if created: return WebexTeamsDateTime.strptime(created)` -/
def createTime (d : Record) : PyValue :=
  let created := dictGet d "createTime"
  if pyTruthy created then WebexTeamsDateTime.strptime created else PyValue.none

/-- `recorded = self._json_data.get("timeRecorded"); if recorded: return WebexTeamsDateTime.strptime(recorded)` -/
def timeRecorded (d : Record) : PyValue :=
  let recorded := dictGet d "timeRecorded"
  if pyTruthy recorded then WebexTeamsDateTime.strptime recorded else PyValue.none

/-- `return self._json_data.get("siteUrl")` -/
def siteUrl (d : Record) : PyValue := dictGet d "siteUrl"

/-- `return self._json_data.get("downloadUrl")` -/
def downloadUrl (d : Record) : PyValue := dictGet d "downloadUrl"

/-- `return self._json_data.get("playbackUrl")` -/
def playbackUrl (d : Record) : PyValue := dictGet d "playbackUrl"

/-- `return self._json_data.get("password")` -/
def password (d : Record) : PyValue := dictGet d "password"

/-- `return self._json_data.get("format")` -/
def format (d : Record) : PyValue := dictGet d "format"

/-- `return self._json_data.get("serviceType")` -/
def serviceType (d : Record) : PyValue := dictGet d "serviceType"

/-- `return self._json_data.get("durationSeconds")` -/
def durationSeconds (d : Record) : PyValue := dictGet d "durationSeconds"

/-- `return self._json_data.get("sizeBytes")` -/
def sizeBytes (d : Record) : PyValue := dictGet d "sizeBytes"

/-- `return self._json_data.get("shareToMe")` -/
def shareToMe (d : Record) : PyValue := dictGet d "shareToMe"

/-- `return self._json_data.get("integrationTags")` -/
def integrationTags (d : Record) : PyValue := dictGet d "integrationTags"

end RecordingBasicPropertiesMixin

namespace RecordingReportBasicPropertiesMixin

/-- `return self._json_data.get("recordingId")` -/
def recordingId (d : Record) : PyValue := dictGet d "recordingId"

/-- `return self._json_data.get("topic")` -/
def topic (d : Record) : PyValue := dictGet d "topic"

/-- `recorded = self._json_data.get("timeRecorded"); if recorded: return WebexTeamsDateTime.strptime(recorded)` -/
def timeRecorded (d : Record) : PyValue :=
  let recorded := dictGet d "timeRecorded"
  if pyTruthy recorded then WebexTeamsDateTime.strptime recorded else PyValue.none

/-- `recorded = self._json_data.get("accessTime"); if recorded: return WebexTeamsDateTime.strptime(recorded)` -/
def accessTime (d : Record) : PyValue :=
  let recorded := dictGet d "accessTime"
  if pyTruthy recorded then WebexTeamsDateTime.strptime recorded else PyValue.none

/-- `return self._json_data.get("siteUrl")` -/
def siteUrl (d : Record) : PyValue := dictGet d "siteUrl"

/-- `return self._json_data.get("hostEmail")` -/
def hostEmail (d : Record) : PyValue := dictGet d "hostEmail"

/-- `return self._json_data.get("viewCount")` -/
def viewCount (d : Record) : PyValue := dictGet d "viewCount"

/-- `return self._json_data.get("downloadCount")` -/
def downloadCount (d : Record) : PyValue := dictGet d "downloadCount"

/-- `return self._json_data.get("email")` -/
def email (d : Record) : PyValue := dictGet d "email"

/-- `return self._json_data.get("format")` -/
def format (d : Record) : PyValue := dictGet d "format"

/-- `return self._json_data.get("viewed")` -/
def viewed (d : Record) : PyValue := dictGet d "viewed"

/-- `return self._json_data.get("downloaded")` -/
def downloaded (d : Record) : PyValue := dictGet d "downloaded"

end RecordingReportBasicPropertiesMixin

/-- `API_ENDPOINT = "recordingReport"` -/
def API_ENDPOINT : String := "recordingReport"

/-- `OBJECT_TYPE = "recording_report"` -/
def OBJECT_TYPE : String := "recording_report"

/-- An error signalled by the Fetcher (remote API / transport error),
kept abstract as a message. -/
abbrev ApiErr := String

/-- One page returned by the Fetcher: an ordered batch of raw item
records plus an optional continuation token. -/
structure Page where
  items : List PyValue
  next : Option String
deriving DecidableEq, Repr

/-- A request issued to the Fetcher: either the initial query (endpoint
plus parameter mapping) or a follow-up using a continuation token. -/
inductive Request where
  | query (endpoint : String) (params : PyDict)
  | follow (token : String)
deriving DecidableEq, Repr

/-- How a demand-driven run of the item generator ends:
* `suspended` — the consumer stopped asking for items, the generator is
  suspended at a `yield`;
* `finished` — the generator ran off the end of the page sequence
  (a page with no continuation token) while the consumer still wanted more;
* `errored` — the Fetcher's error propagated to the consumer;
* `typeError` — parameter validation failed before any fetch;
* `scriptEnded` — the scripted Fetcher has no response left (scenario
  outside the script, never reached in the theorems below). -/
inductive Outcome where
  | suspended
  | finished
  | errored (e : ApiErr)
  | typeError
  | scriptEnded
deriving DecidableEq, Repr

/-- The observable behavior of one demand-driven run of an iterator:
the items yielded in order, the trace of requests issued to the Fetcher
(its length is the fetch count), and how the run ended. -/
structure RunResult where
  yielded : List PyValue
  trace : List Request
  outcome : Outcome
deriving DecidableEq, Repr

/-- Modelled from the spec: `RestSession.get_items` (the page-producing
generator of the Fetcher wrapper) is not among the covered sources.  The
spec's pagination algorithm: issue the initial fetch with the query
parameters; produce each item of the returned page in the order received;
if the page carries a continuation token, issue the next fetch from that
token alone and repeat; terminate when a page carries no token.  Errors
propagate immediately; pages are fetched lazily, only when the consumer
demands an item beyond those already yielded.

The Fetcher is scripted: the k-th fetch of the run receives the k-th entry
of `script`.  `demand` is how many items the consumer requests before
stopping; `req` is the request the next fetch would issue. -/
def get_items : List (Except ApiErr Page) → Request → Nat → RunResult
  | _, _, 0 => ⟨[], [], .suspended⟩
  | [], req, _ + 1 => ⟨[], [req], .scriptEnded⟩
  | .error e :: _, req, _ + 1 => ⟨[], [req], .errored e⟩
  | .ok pg :: rest, req, d + 1 =>
    if d + 1 ≤ pg.items.length then ⟨pg.items.take (d + 1), [req], .suspended⟩
    else
      match pg.next with
      | Option.none => ⟨pg.items, [req], .finished⟩
      | some t =>
        let r := get_items rest (.follow t) (d + 1 - pg.items.length)
        ⟨pg.items ++ r.yielded, req :: r.trace, r.outcome⟩

/-- The object factory collaborator: `construct(type_tag, raw record)`,
pure, no I/O. -/
abbrev Factory := String → PyValue → PyValue

/-- The arguments of one `access_summary` call, with the source's
defaults (`max=None, _from=None, to=None, hostEmail="all", siteUrl=None`)
and the extra keyword parameters. -/
structure SummaryArgs where
  max : PyValue := PyValue.none
  _from : PyValue := PyValue.none
  «to» : PyValue := PyValue.none
  hostEmail : PyValue := PyValue.str "all"
  siteUrl : PyValue := PyValue.none
  request_parameters : PyDict := []
deriving DecidableEq, Repr

/-- The `check_type` calls at the top of `access_summary`:
`check_type(max, int, optional=True)` and the four string checks. -/
def summaryValid (a : SummaryArgs) : Bool :=
  check_type a.max .int true &&
  check_type a._from .str true &&
  check_type a.«to» .str true &&
  check_type a.hostEmail .str true &&
  check_type a.siteUrl .str true

/-- The parameter mapping built by `access_summary`:
`dict_from_items_with_values(request_parameters, max_recordings=max,
_from=_from, to=to, hostEmail=hostEmail, siteUrl=siteUrl)`. -/
def summaryParams (a : SummaryArgs) : PyDict :=
  dict_from_items_with_values
    [a.request_parameters,
     [("max_recordings", a.max), ("_from", a._from), ("to", a.«to»),
      ("hostEmail", a.hostEmail), ("siteUrl", a.siteUrl)]]

/-- The initial request `access_summary` sends to the Fetcher:
`self._session.get_items(API_ENDPOINT + "/accessSummary", params=params)`. -/
def initialRequest (a : SummaryArgs) : Request :=
  .query (API_ENDPOINT ++ "/accessSummary") (summaryParams a)

/-- One demand-driven run of the generator produced by the
`access_summary` body: since the body is a Python generator function,
nothing (not even the `check_type` validation) runs until the consumer
requests the first item; then validation runs, and on success the
pagination loop yields `self._object_factory(OBJECT_TYPE, item)` for each
raw item, fetching pages as demanded. -/
def access_summary_iter (factory : Factory) (a : SummaryArgs)
    (script : List (Except ApiErr Page)) (demand : Nat) : RunResult :=
  if demand = 0 then ⟨[], [], .suspended⟩
  else if summaryValid a then
    let r := get_items script (initialRequest a) demand
    ⟨r.yielded.map (factory OBJECT_TYPE), r.trace, r.outcome⟩
  else ⟨[], [], .typeError⟩

/-- Modelled from the spec: the `generator_container` decorator
(`webexteamssdk.generator_containers`, not among the covered sources)
wraps `access_summary` so that calling it performs no side effect and
merely stores the call's arguments; each iterator request re-invokes the
underlying generator function with the same stored arguments. -/
structure GeneratorContainer where
  args : SummaryArgs
deriving DecidableEq, Repr

/-- Calling `access_summary(...)` under the `@generator_container`
decorator: constructs the container, nothing else happens. -/
def access_summary (a : SummaryArgs) : GeneratorContainer := ⟨a⟩

/-- Requesting a new iterator from the container and driving it with the
given demand against the scripted Fetcher: re-runs the generator function
on the stored arguments from scratch. -/
def newIterator (c : GeneratorContainer) (factory : Factory)
    (script : List (Except ApiErr Page)) (demand : Nat) : RunResult :=
  access_summary_iter factory c.args script demand

/-- Requesting `n` successive iterators from the container, each driven
with the same demand against its own run of the scripted Fetcher. -/
def iterateRuns (c : GeneratorContainer) (factory : Factory)
    (script : List (Except ApiErr Page)) (demand : Nat) : Nat → List RunResult
  | 0 => []
  | n + 1 => newIterator c factory script demand :: iterateRuns c factory script demand n

/-- Total number of Fetcher calls across a list of runs. -/
def totalFetches (rs : List RunResult) : Nat :=
  (rs.map (fun r => r.trace.length)).sum

/-- Total number of items across a list of pages. -/
def totalItems (pages : List Page) : Nat :=
  (pages.map (fun p => p.items.length)).sum

/-- Spec-side notion for the laziness claim: the least number of pages
that must be fetched, in order, to produce a prefix of `d` items (all
pages if the pages run out first). -/
def specPagesNeededForPrefix : List Page → Nat → Nat
  | _, 0 => 0
  | [], _ + 1 => 0
  | pg :: rest, d + 1 =>
    if d + 1 ≤ pg.items.length then 1
    else specPagesNeededForPrefix rest (d + 1 - pg.items.length) + 1

/-- The arguments of one `access_detail` call, with the source's defaults. -/
structure DetailArgs where
  recordingId : PyValue
  max : PyValue := PyValue.none
  hostEmail : PyValue := PyValue.none
  request_parameters : PyDict := []
deriving DecidableEq, Repr

/-- The `check_type` calls of `access_detail`, in source order:
`check_type(max, int, optional=True)`, `check_type(recordingId,
basestring)` (required), `check_type(hostEmail, basestring,
optional=True)`. -/
def detailValid (a : DetailArgs) : Bool :=
  check_type a.max .int true &&
  check_type a.recordingId .str false &&
  check_type a.hostEmail .str true

/-- The parameter mapping built by `access_detail`:
`dict_from_items_with_values(request_parameters, max=max,
recordingId=recordingId, hostEmail=hostEmail)`. -/
def detailParams (a : DetailArgs) : PyDict :=
  dict_from_items_with_values
    [a.request_parameters,
     [("max", a.max), ("recordingId", a.recordingId), ("hostEmail", a.hostEmail)]]

/-- Result of an `access_detail` call. -/
inductive DetailResult where
  | typeError
  | ok (item : PyValue)
  | apiError (e : ApiErr)
deriving DecidableEq, Repr

/-- `access_detail`: validate the parameters; on success perform exactly
one fetch (`self._session.get(API_ENDPOINT + "/accessDetail",
params=params)`, a single synchronous request modelled by its scripted
response) and return `self._object_factory(OBJECT_TYPE, json_data)`, or
propagate the Fetcher's error.  The second component is the number of
fetches performed. -/
def access_detail (factory : Factory) (a : DetailArgs)
    (response : Except ApiErr PyValue) : DetailResult × Nat :=
  if detailValid a then
    match response with
    | .ok j => (.ok (factory OBJECT_TYPE j), 1)
    | .error e => (.apiError e, 1)
  else (.typeError, 0)

/-- The concatenation of the items of a list of pages, in order. -/
def pagesItems : List Page → List PyValue
  | [] => []
  | p :: rest => p.items ++ pagesItems rest

/-- The five parameter names `access_summary` itself writes into the
parameter mapping (source lines 119–126); an extra keyword parameter is
"unrecognized" when its key is none of these. -/
def reservedSummaryKeys : List String :=
  ["max_recordings", "_from", "to", "hostEmail", "siteUrl"]

/-- A concrete object factory used in concrete evaluations: wraps the raw
record unchanged. -/
def sampleFactory : Factory := fun _ v => v

/-- A concrete `access_summary` call supplying `max=5`, a `from` date and
one extra keyword parameter. -/
def c5args : SummaryArgs :=
  { max := PyValue.int 5,
    _from := PyValue.str "2020-01-01T00:00:00Z",
    request_parameters := [("meetingId", PyValue.str "m1")] }

/-- A concrete `access_summary` call leaving `max` unset and relying on
the `hostEmail="all"` default. -/
def c5wargs : SummaryArgs :=
  { _from := PyValue.str "2020-01-01T00:00:00Z",
    request_parameters := [("meetingId", PyValue.str "m1")] }

/-- A concrete record with the `topic` field present but null and every
other field absent. -/
def nullTopicRecord : Record := [("topic", PyValue.none)]

/-- A concrete record exercising the date-time accessors: a non-empty
date string, an empty string, and a null. -/
def dateRecord : Record :=
  [("timeRecorded", PyValue.str "2020-01-01T00:00:00.000Z"),
   ("accessTime", PyValue.str ""),
   ("createTime", PyValue.none)]

/-! ### Helper lemmas -/

theorem insertItems_nil (acc : PyDict) : insertItems acc [] = acc := rfl

theorem insertItems_cons (acc : PyDict) (kv : String × PyValue) (rest : PyDict) :
    insertItems acc (kv :: rest) =
      insertItems (if kv.2 = PyValue.none then acc else pySet acc kv.1 kv.2) rest := by
  simp only [insertItems, List.foldl_cons]

theorem lookupKey_pySet (d : PyDict) (k q : String) (v : PyValue) :
    lookupKey (pySet d k v) q = if k = q then some v else lookupKey d q := by
  induction d with
  | nil =>
      simp only [pySet, lookupKey]
  | cons kv rest ih =>
      by_cases h : kv.1 = k
      · simp only [pySet, h, if_pos rfl, lookupKey]
        by_cases h2 : k = q
        · simp [h2]
        · simp [h2, h]
      · simp only [pySet, if_neg h, lookupKey]
        by_cases h2 : kv.1 = q
        · have : ¬ k = q := fun hk => h (hk ▸ h2)
          simp [h2, this]
        · simp [h2, ih]

theorem lookupKey_step (acc : PyDict) (k q : String) (v : PyValue) :
    lookupKey (if v = PyValue.none then acc else pySet acc k v) q =
      if k = q ∧ v ≠ PyValue.none then some v else lookupKey acc q := by
  by_cases hv : v = PyValue.none
  · simp [hv]
  · rw [if_neg hv, lookupKey_pySet]
    by_cases hk : k = q
    · simp [hk, hv]
    · simp [hk]

theorem lookupKey_insertItems_not_mem (items : PyDict) :
    ∀ (acc : PyDict) (q : String), (∀ kv ∈ items, kv.1 ≠ q) →
      lookupKey (insertItems acc items) q = lookupKey acc q := by
  induction items with
  | nil => intro acc q _; rfl
  | cons kv rest ih =>
      intro acc q h
      have hkv : kv.1 ≠ q := h kv (List.mem_cons_self kv rest)
      rw [insertItems_cons, ih _ q (fun kv2 hm => h kv2 (List.mem_cons_of_mem kv hm)),
        lookupKey_step, if_neg (fun hc => hkv hc.1)]

theorem lookupKey_insertItems_mem (items : PyDict) :
    ∀ (acc : PyDict) (k : String) (v : PyValue),
      (items.map Prod.fst).Nodup → (k, v) ∈ items → v ≠ PyValue.none →
      lookupKey (insertItems acc items) k = some v := by
  induction items with
  | nil => intro acc k v _ hmem _; exact absurd hmem (List.not_mem_nil _)
  | cons kv rest ih =>
      intro acc k v hnod hmem hv
      rw [List.map_cons, List.nodup_cons] at hnod
      rw [insertItems_cons]
      rcases List.mem_cons.mp hmem with heq | hmem2
      · have hk1 : kv.1 = k := by rw [← heq]
        have hk2 : kv.2 = v := by rw [← heq]
        have hnotin : ∀ kv2 ∈ rest, kv2.1 ≠ k := by
          intro kv2 hm2 hcontra
          have hmm : kv.1 ∈ rest.map Prod.fst := by
            rw [hk1, ← hcontra]
            exact List.mem_map_of_mem Prod.fst hm2
          exact hnod.1 hmm
        rw [lookupKey_insertItems_not_mem rest _ k hnotin, lookupKey_step, hk1, hk2,
          if_pos ⟨rfl, hv⟩]
      · exact ih _ k v hnod.2 hmem2 hv

theorem lookupKey_insertItems_none_val (items : PyDict) :
    ∀ (acc : PyDict) (k : String),
      (items.map Prod.fst).Nodup → (k, PyValue.none) ∈ items →
      lookupKey (insertItems acc items) k = lookupKey acc k := by
  induction items with
  | nil => intro acc k _ hmem; exact absurd hmem (List.not_mem_nil _)
  | cons kv rest ih =>
      intro acc k hnod hmem
      rw [List.map_cons, List.nodup_cons] at hnod
      rw [insertItems_cons]
      rcases List.mem_cons.mp hmem with heq | hmem2
      · have hk1 : kv.1 = k := by rw [← heq]
        have hk2 : kv.2 = PyValue.none := by rw [← heq]
        have hnotin : ∀ kv2 ∈ rest, kv2.1 ≠ k := by
          intro kv2 hm2 hcontra
          have hmm : kv.1 ∈ rest.map Prod.fst := by
            rw [hk1, ← hcontra]
            exact List.mem_map_of_mem Prod.fst hm2
          exact hnod.1 hmm
        rw [if_pos hk2, lookupKey_insertItems_not_mem rest _ k hnotin]
      · have hk : kv.1 ≠ k := by
          intro hcon
          refine hnod.1 ?_
          rw [hcon]
          exact List.mem_map_of_mem Prod.fst hmem2
        rw [ih _ k hnod.2 hmem2, lookupKey_step, if_neg (fun hc => hk hc.1)]

theorem summaryParams_eq (a : SummaryArgs) :
    summaryParams a =
      insertItems (insertItems [] a.request_parameters)
        [("max_recordings", a.max), ("_from", a._from), ("to", a.«to»),
         ("hostEmail", a.hostEmail), ("siteUrl", a.siteUrl)] := rfl

theorem totalItems_cons (p : Page) (rest : List Page) :
    totalItems (p :: rest) = p.items.length + totalItems rest := by
  simp [totalItems]

theorem get_items_zero_demand (script : List (Except ApiErr Page)) (req : Request) :
    get_items script req 0 = ⟨[], [], Outcome.suspended⟩ := by
  cases script with
  | nil => rfl
  | cons h tl => cases h <;> rfl

theorem get_items_trace_head (script : List (Except ApiErr Page)) (req : Request)
    (d : Nat) (hd : 0 < d) : (get_items script req d).trace.head? = some req := by
  obtain ⟨d2, rfl⟩ : ∃ d2, d = d2 + 1 := ⟨d - 1, by omega⟩
  cases script with
  | nil => simp [get_items]
  | cons h tl =>
      cases h with
      | error e => simp [get_items]
      | ok pg =>
          rw [get_items]
          by_cases hle : d2 + 1 ≤ pg.items.length
          · simp [hle]
          · rw [if_neg hle]
            cases hnx : pg.next with
            | none => simp
            | some t => simp

theorem get_items_error_after_pages (e : ApiErr) (pages : List Page) :
    ∀ (req : Request) (d : Nat), totalItems pages < d → (∀ p ∈ pages, p.next.isSome) →
      (get_items (pages.map Except.ok ++ [Except.error e]) req d).yielded =
          pagesItems pages ∧
      (get_items (pages.map Except.ok ++ [Except.error e]) req d).trace.length =
          pages.length + 1 ∧
      (get_items (pages.map Except.ok ++ [Except.error e]) req d).outcome =
          Outcome.errored e := by
  induction pages with
  | nil =>
      intro req d hd _
      obtain ⟨d2, rfl⟩ : ∃ d2, d = d2 + 1 := ⟨d - 1, by omega⟩
      simp [get_items, pagesItems]
  | cons pg rest ih =>
      intro req d hd hnext
      obtain ⟨d2, rfl⟩ : ∃ d2, d = d2 + 1 := ⟨d - 1, by omega⟩
      rw [totalItems_cons] at hd
      have hle : ¬ (d2 + 1 ≤ pg.items.length) := by omega
      obtain ⟨t, ht⟩ := Option.isSome_iff_exists.mp (hnext pg (List.mem_cons_self pg rest))
      have ihh := ih (Request.follow t) (d2 + 1 - pg.items.length) (by omega)
        (fun p hp => hnext p (List.mem_cons_of_mem pg hp))
      refine ⟨?_, ?_, ?_⟩ <;>
        simp only [List.map_cons, List.cons_append, get_items, if_neg hle, ht,
          List.append_eq, pagesItems, List.length_cons, ihh.1, ihh.2.1, ihh.2.2]

theorem get_items_lazy (pages : List Page) :
    ∀ (req : Request) (d : Nat), (∀ p ∈ pages.dropLast, p.next.isSome) →
      d ≤ totalItems pages →
      (get_items (pages.map Except.ok) req d).trace.length =
        specPagesNeededForPrefix pages d := by
  induction pages with
  | nil =>
      intro req d _ hd
      have hz : d = 0 := by simpa [totalItems] using hd
      subst hz
      simp [get_items, specPagesNeededForPrefix]
  | cons pg rest ih =>
      intro req d hnext hd
      match d with
      | 0 => simp [get_items_zero_demand, specPagesNeededForPrefix]
      | Nat.succ d2 =>
        rw [totalItems_cons] at hd
        by_cases hle : d2 + 1 ≤ pg.items.length
        · simp [get_items, specPagesNeededForPrefix, hle]
        · have hrpos : 0 < totalItems rest := by omega
          have hrne : rest ≠ [] := by
            intro hcon
            rw [hcon] at hrpos
            simp [totalItems] at hrpos
          obtain ⟨r, rs, rfl⟩ : ∃ r rs, rest = r :: rs := by
            cases rest with
            | nil => exact absurd rfl hrne
            | cons r rs => exact ⟨r, rs, rfl⟩
          have hdrop : (pg :: r :: rs).dropLast = pg :: (r :: rs).dropLast := rfl
          obtain ⟨t, ht⟩ := Option.isSome_iff_exists.mp
            (hnext pg (by rw [hdrop]; exact List.mem_cons_self _ _))
          have ihh := ih (Request.follow t) (d2 + 1 - pg.items.length)
            (fun p hp => hnext p (by rw [hdrop]; exact List.mem_cons_of_mem pg hp))
            (by omega)
          simp only [List.map_cons, get_items, if_neg hle, ht, List.length_cons,
            specPagesNeededForPrefix]
          rw [← List.map_cons, ihh]

/-! ### Claim theorems -/

/-- C9: for every property accessor of the `RecordingReport` and `Recording`
model mixins and every backing JSON record, a field that is absent from the
record, or present with a null value, reads back as `None` rather than
raising an error — missing and null are treated identically (both reach the
accessor as Python `None`), and every accessor is a total function of the
record. -/
theorem claim_C9_absent_or_null_reads_none (d : Record) :
    ((lookupKey d "id" = Option.none ∨ lookupKey d "id" = some PyValue.none) →
        RecordingBasicPropertiesMixin.id d = PyValue.none) ∧
    ((lookupKey d "meetingId" = Option.none ∨ lookupKey d "meetingId" = some PyValue.none) →
        RecordingBasicPropertiesMixin.meetingId d = PyValue.none) ∧
    ((lookupKey d "scheduledMeetingId" = Option.none ∨ lookupKey d "scheduledMeetingId" = some PyValue.none) →
        RecordingBasicPropertiesMixin.scheduledMeetingId d = PyValue.none) ∧
    ((lookupKey d "topic" = Option.none ∨ lookupKey d "topic" = some PyValue.none) →
        RecordingBasicPropertiesMixin.topic d = PyValue.none) ∧
    ((lookupKey d "meetingSeriesId" = Option.none ∨ lookupKey d "meetingSeriesId" = some PyValue.none) →
        RecordingBasicPropertiesMixin.meetingSeriesId d = PyValue.none) ∧
    ((lookupKey d "createTime" = Option.none ∨ lookupKey d "createTime" = some PyValue.none) →
        RecordingBasicPropertiesMixin.createTime d = PyValue.none) ∧
    ((lookupKey d "timeRecorded" = Option.none ∨ lookupKey d "timeRecorded" = some PyValue.none) →
        RecordingBasicPropertiesMixin.timeRecorded d = PyValue.none) ∧
    ((lookupKey d "siteUrl" = Option.none ∨ lookupKey d "siteUrl" = some PyValue.none) →
        RecordingBasicPropertiesMixin.siteUrl d = PyValue.none) ∧
    ((lookupKey d "downloadUrl" = Option.none ∨ lookupKey d "downloadUrl" = some PyValue.none) →
        RecordingBasicPropertiesMixin.downloadUrl d = PyValue.none) ∧
    ((lookupKey d "playbackUrl" = Option.none ∨ lookupKey d "playbackUrl" = some PyValue.none) →
        RecordingBasicPropertiesMixin.playbackUrl d = PyValue.none) ∧
    ((lookupKey d "password" = Option.none ∨ lookupKey d "password" = some PyValue.none) →
        RecordingBasicPropertiesMixin.password d = PyValue.none) ∧
    ((lookupKey d "format" = Option.none ∨ lookupKey d "format" = some PyValue.none) →
        RecordingBasicPropertiesMixin.format d = PyValue.none) ∧
    ((lookupKey d "serviceType" = Option.none ∨ lookupKey d "serviceType" = some PyValue.none) →
        RecordingBasicPropertiesMixin.serviceType d = PyValue.none) ∧
    ((lookupKey d "durationSeconds" = Option.none ∨ lookupKey d "durationSeconds" = some PyValue.none) →
        RecordingBasicPropertiesMixin.durationSeconds d = PyValue.none) ∧
    ((lookupKey d "sizeBytes" = Option.none ∨ lookupKey d "sizeBytes" = some PyValue.none) →
        RecordingBasicPropertiesMixin.sizeBytes d = PyValue.none) ∧
    ((lookupKey d "shareToMe" = Option.none ∨ lookupKey d "shareToMe" = some PyValue.none) →
        RecordingBasicPropertiesMixin.shareToMe d = PyValue.none) ∧
    ((lookupKey d "integrationTags" = Option.none ∨ lookupKey d "integrationTags" = some PyValue.none) →
        RecordingBasicPropertiesMixin.integrationTags d = PyValue.none) ∧
    ((lookupKey d "recordingId" = Option.none ∨ lookupKey d "recordingId" = some PyValue.none) →
        RecordingReportBasicPropertiesMixin.recordingId d = PyValue.none) ∧
    ((lookupKey d "topic" = Option.none ∨ lookupKey d "topic" = some PyValue.none) →
        RecordingReportBasicPropertiesMixin.topic d = PyValue.none) ∧
    ((lookupKey d "timeRecorded" = Option.none ∨ lookupKey d "timeRecorded" = some PyValue.none) →
        RecordingReportBasicPropertiesMixin.timeRecorded d = PyValue.none) ∧
    ((lookupKey d "accessTime" = Option.none ∨ lookupKey d "accessTime" = some PyValue.none) →
        RecordingReportBasicPropertiesMixin.accessTime d = PyValue.none) ∧
    ((lookupKey d "siteUrl" = Option.none ∨ lookupKey d "siteUrl" = some PyValue.none) →
        RecordingReportBasicPropertiesMixin.siteUrl d = PyValue.none) ∧
    ((lookupKey d "hostEmail" = Option.none ∨ lookupKey d "hostEmail" = some PyValue.none) →
        RecordingReportBasicPropertiesMixin.hostEmail d = PyValue.none) ∧
    ((lookupKey d "viewCount" = Option.none ∨ lookupKey d "viewCount" = some PyValue.none) →
        RecordingReportBasicPropertiesMixin.viewCount d = PyValue.none) ∧
    ((lookupKey d "downloadCount" = Option.none ∨ lookupKey d "downloadCount" = some PyValue.none) →
        RecordingReportBasicPropertiesMixin.downloadCount d = PyValue.none) ∧
    ((lookupKey d "email" = Option.none ∨ lookupKey d "email" = some PyValue.none) →
        RecordingReportBasicPropertiesMixin.email d = PyValue.none) ∧
    ((lookupKey d "format" = Option.none ∨ lookupKey d "format" = some PyValue.none) →
        RecordingReportBasicPropertiesMixin.format d = PyValue.none) ∧
    ((lookupKey d "viewed" = Option.none ∨ lookupKey d "viewed" = some PyValue.none) →
        RecordingReportBasicPropertiesMixin.viewed d = PyValue.none) ∧
    ((lookupKey d "downloaded" = Option.none ∨ lookupKey d "downloaded" = some PyValue.none) →
        RecordingReportBasicPropertiesMixin.downloaded d = PyValue.none) := by
  have habs : ∀ k, (lookupKey d k = Option.none ∨ lookupKey d k = some PyValue.none) →
      dictGet d k = PyValue.none := by
    intro k h
    cases h with
    | inl h2 => simp [dictGet, h2]
    | inr h2 => simp [dictGet, h2]
  refine ⟨?_, ?_, ?_, ?_, ?_, ?_, ?_, ?_, ?_, ?_, ?_, ?_, ?_, ?_, ?_, ?_, ?_, ?_, ?_, ?_, ?_, ?_, ?_, ?_, ?_, ?_, ?_, ?_, ?_⟩ <;>
    intro h <;>
    simp [RecordingBasicPropertiesMixin.createTime, RecordingBasicPropertiesMixin.downloadUrl, RecordingBasicPropertiesMixin.durationSeconds, RecordingBasicPropertiesMixin.format, RecordingBasicPropertiesMixin.id, RecordingBasicPropertiesMixin.integrationTags, RecordingBasicPropertiesMixin.meetingId, RecordingBasicPropertiesMixin.meetingSeriesId, RecordingBasicPropertiesMixin.password, RecordingBasicPropertiesMixin.playbackUrl, RecordingBasicPropertiesMixin.scheduledMeetingId, RecordingBasicPropertiesMixin.serviceType, RecordingBasicPropertiesMixin.shareToMe, RecordingBasicPropertiesMixin.siteUrl, RecordingBasicPropertiesMixin.sizeBytes, RecordingBasicPropertiesMixin.timeRecorded, RecordingBasicPropertiesMixin.topic, RecordingReportBasicPropertiesMixin.accessTime, RecordingReportBasicPropertiesMixin.downloadCount, RecordingReportBasicPropertiesMixin.downloaded, RecordingReportBasicPropertiesMixin.email, RecordingReportBasicPropertiesMixin.format, RecordingReportBasicPropertiesMixin.hostEmail, RecordingReportBasicPropertiesMixin.recordingId, RecordingReportBasicPropertiesMixin.siteUrl, RecordingReportBasicPropertiesMixin.timeRecorded, RecordingReportBasicPropertiesMixin.topic, RecordingReportBasicPropertiesMixin.viewCount, RecordingReportBasicPropertiesMixin.viewed,
      habs _ h, pyTruthy]

/-- Witness for C9 at a concrete record: `topic` present but null, every
other field absent. -/
theorem claim_C9_witness :
    RecordingBasicPropertiesMixin.id nullTopicRecord = PyValue.none ∧
    RecordingBasicPropertiesMixin.meetingId nullTopicRecord = PyValue.none ∧
    RecordingBasicPropertiesMixin.scheduledMeetingId nullTopicRecord = PyValue.none ∧
    RecordingBasicPropertiesMixin.topic nullTopicRecord = PyValue.none ∧
    RecordingBasicPropertiesMixin.meetingSeriesId nullTopicRecord = PyValue.none ∧
    RecordingBasicPropertiesMixin.createTime nullTopicRecord = PyValue.none ∧
    RecordingBasicPropertiesMixin.timeRecorded nullTopicRecord = PyValue.none ∧
    RecordingBasicPropertiesMixin.siteUrl nullTopicRecord = PyValue.none ∧
    RecordingBasicPropertiesMixin.downloadUrl nullTopicRecord = PyValue.none ∧
    RecordingBasicPropertiesMixin.playbackUrl nullTopicRecord = PyValue.none ∧
    RecordingBasicPropertiesMixin.password nullTopicRecord = PyValue.none ∧
    RecordingBasicPropertiesMixin.format nullTopicRecord = PyValue.none ∧
    RecordingBasicPropertiesMixin.serviceType nullTopicRecord = PyValue.none ∧
    RecordingBasicPropertiesMixin.durationSeconds nullTopicRecord = PyValue.none ∧
    RecordingBasicPropertiesMixin.sizeBytes nullTopicRecord = PyValue.none ∧
    RecordingBasicPropertiesMixin.shareToMe nullTopicRecord = PyValue.none ∧
    RecordingBasicPropertiesMixin.integrationTags nullTopicRecord = PyValue.none ∧
    RecordingReportBasicPropertiesMixin.recordingId nullTopicRecord = PyValue.none ∧
    RecordingReportBasicPropertiesMixin.topic nullTopicRecord = PyValue.none ∧
    RecordingReportBasicPropertiesMixin.timeRecorded nullTopicRecord = PyValue.none ∧
    RecordingReportBasicPropertiesMixin.accessTime nullTopicRecord = PyValue.none ∧
    RecordingReportBasicPropertiesMixin.siteUrl nullTopicRecord = PyValue.none ∧
    RecordingReportBasicPropertiesMixin.hostEmail nullTopicRecord = PyValue.none ∧
    RecordingReportBasicPropertiesMixin.viewCount nullTopicRecord = PyValue.none ∧
    RecordingReportBasicPropertiesMixin.downloadCount nullTopicRecord = PyValue.none ∧
    RecordingReportBasicPropertiesMixin.email nullTopicRecord = PyValue.none ∧
    RecordingReportBasicPropertiesMixin.format nullTopicRecord = PyValue.none ∧
    RecordingReportBasicPropertiesMixin.viewed nullTopicRecord = PyValue.none ∧
    RecordingReportBasicPropertiesMixin.downloaded nullTopicRecord = PyValue.none := by
  obtain ⟨h0, h1, h2, h3, h4, h5, h6, h7, h8, h9, h10, h11, h12, h13, h14, h15, h16, h17, h18, h19, h20, h21, h22, h23, h24, h25, h26, h27, h28⟩ := claim_C9_absent_or_null_reads_none nullTopicRecord
  exact ⟨h0 (by decide), h1 (by decide), h2 (by decide), h3 (by decide), h4 (by decide), h5 (by decide), h6 (by decide), h7 (by decide), h8 (by decide), h9 (by decide), h10 (by decide), h11 (by decide), h12 (by decide), h13 (by decide), h14 (by decide), h15 (by decide), h16 (by decide), h17 (by decide), h18 (by decide), h19 (by decide), h20 (by decide), h21 (by decide), h22 (by decide), h23 (by decide), h24 (by decide), h25 (by decide), h26 (by decide), h27 (by decide), h28 (by decide)⟩


/-- C10: the four date-time accessors (`timeRecorded` and `accessTime` on
`RecordingReportBasicPropertiesMixin`, `createTime` and `timeRecorded` on
`RecordingBasicPropertiesMixin`) return a parsed date-time object when the
field holds a non-empty string, and return `None` — without attempting a
parse — whenever the field's value is falsy: missing, null, or present
with any falsy value such as the empty string. -/
theorem claim_C10_datetime_accessors (d : Record) :
    ((∀ s, dictGet d "timeRecorded" = PyValue.str s → s ≠ "" →
        RecordingReportBasicPropertiesMixin.timeRecorded d = PyValue.datetime s) ∧
     (pyTruthy (dictGet d "timeRecorded") = false →
        RecordingReportBasicPropertiesMixin.timeRecorded d = PyValue.none)) ∧
    ((∀ s, dictGet d "accessTime" = PyValue.str s → s ≠ "" →
        RecordingReportBasicPropertiesMixin.accessTime d = PyValue.datetime s) ∧
     (pyTruthy (dictGet d "accessTime") = false →
        RecordingReportBasicPropertiesMixin.accessTime d = PyValue.none)) ∧
    ((∀ s, dictGet d "createTime" = PyValue.str s → s ≠ "" →
        RecordingBasicPropertiesMixin.createTime d = PyValue.datetime s) ∧
     (pyTruthy (dictGet d "createTime") = false →
        RecordingBasicPropertiesMixin.createTime d = PyValue.none)) ∧
    ((∀ s, dictGet d "timeRecorded" = PyValue.str s → s ≠ "" →
        RecordingBasicPropertiesMixin.timeRecorded d = PyValue.datetime s) ∧
     (pyTruthy (dictGet d "timeRecorded") = false →
        RecordingBasicPropertiesMixin.timeRecorded d = PyValue.none)) := by
  refine ⟨⟨?_, ?_⟩, ⟨?_, ?_⟩, ⟨?_, ?_⟩, ⟨?_, ?_⟩⟩
  all_goals
    first
    | (intro s hs hne
       simp [RecordingReportBasicPropertiesMixin.timeRecorded,
         RecordingReportBasicPropertiesMixin.accessTime,
         RecordingBasicPropertiesMixin.createTime,
         RecordingBasicPropertiesMixin.timeRecorded,
         hs, pyTruthy, WebexTeamsDateTime.strptime, hne])
    | (intro hfalsy
       simp [RecordingReportBasicPropertiesMixin.timeRecorded,
         RecordingReportBasicPropertiesMixin.accessTime,
         RecordingBasicPropertiesMixin.createTime,
         RecordingBasicPropertiesMixin.timeRecorded,
         hfalsy])

/-- Witness for C10 at a concrete record: a non-empty date string, an
empty string, and a null field. -/
theorem claim_C10_witness :
    RecordingReportBasicPropertiesMixin.timeRecorded dateRecord =
        PyValue.datetime "2020-01-01T00:00:00.000Z" ∧
    RecordingReportBasicPropertiesMixin.accessTime dateRecord = PyValue.none ∧
    RecordingBasicPropertiesMixin.createTime dateRecord = PyValue.none ∧
    RecordingBasicPropertiesMixin.timeRecorded dateRecord =
        PyValue.datetime "2020-01-01T00:00:00.000Z" := by
  obtain ⟨⟨h1, _⟩, ⟨_, h2⟩, ⟨_, h3⟩, ⟨h4, _⟩⟩ := claim_C10_datetime_accessors dateRecord
  exact ⟨h1 "2020-01-01T00:00:00.000Z" (by decide) (by decide), h2 (by decide),
    h3 (by decide), h4 "2020-01-01T00:00:00.000Z" (by decide) (by decide)⟩

/-- C4 (amended): `access_detail` raises a type-validation error before any
fetch (fetch count = 0) whenever `recordingId` is absent (`None`) or not a
string; the same happens when `recordingId` is a valid string but `max` is
present and not an integer, or `hostEmail` is present and not a string.
Only when all parameters pass validation does exactly one fetch occur,
returning exactly one constructed object or propagating the Fetcher's
error unchanged. -/
theorem claim_C4_detail_validation (factory : Factory) (a : DetailArgs)
    (response : Except ApiErr PyValue) :
    (check_type a.recordingId PyType.str false = false →
       access_detail factory a response = (DetailResult.typeError, 0)) ∧
    (detailValid a = false →
       access_detail factory a response = (DetailResult.typeError, 0)) ∧
    (detailValid a = true →
       access_detail factory a response =
         (match response with
          | .ok j => (DetailResult.ok (factory OBJECT_TYPE j), 1)
          | .error e => (DetailResult.apiError e, 1))) := by
  refine ⟨?_, ?_, ?_⟩
  · intro h
    have hv : detailValid a = false := by
      simp [detailValid, h]
    simp [access_detail, hv]
  · intro hv
    simp [access_detail, hv]
  · intro hv
    simp [access_detail, hv]

/-- C4 counterexample: with `recordingId` a perfectly valid string but
`max="5"`, `access_detail` raises a type error with zero fetches, so the
claim's "otherwise exactly one fetch is performed and exactly one
constructed object is returned" branch is false. -/
theorem claim_C4_counterexample :
    isInstance (PyValue.str "rec1") PyType.str = true ∧
    access_detail sampleFactory
      { recordingId := PyValue.str "rec1", max := PyValue.str "5" }
      (Except.ok (PyValue.str "body")) = (DetailResult.typeError, 0) := by
  constructor
  · rfl
  · decide

/-- Witness for C4 at concrete inputs: a `None` recordingId fails before
any fetch; a fully valid call performs exactly one fetch and returns the
constructed object. -/
theorem claim_C4_witness :
    access_detail sampleFactory { recordingId := PyValue.none }
        (Except.ok (PyValue.str "body")) = (DetailResult.typeError, 0) ∧
    access_detail sampleFactory { recordingId := PyValue.str "rec1" }
        (Except.ok (PyValue.str "body")) = (DetailResult.ok (PyValue.str "body"), 1) := by
  constructor
  · exact (claim_C4_detail_validation sampleFactory { recordingId := PyValue.none }
      (Except.ok (PyValue.str "body"))).1 (by decide)
  · exact (claim_C4_detail_validation sampleFactory { recordingId := PyValue.str "rec1" }
      (Except.ok (PyValue.str "body"))).2.2 (by decide)

/-- C6: a wrong-shaped `access_summary` parameter (e.g. `max="5"`) makes
every iteration of the produced sequence fail with a type-validation error
before any fetch is attempted: the run yields no items, issues zero
requests to the Fetcher (so the error is never retried at this layer), and
ends in the validation error. -/
theorem claim_C6_summary_validation (factory : Factory) (a : SummaryArgs)
    (script : List (Except ApiErr Page)) (demand : Nat)
    (hval : summaryValid a = false) (hd : 0 < demand) :
    newIterator (access_summary a) factory script demand =
      ⟨[], [], Outcome.typeError⟩ := by
  have hne : ¬ (demand = 0) := by omega
  simp [newIterator, access_summary, access_summary_iter, hne, hval]

/-- Witness for C6 at a concrete call: `max="5"` and demand 1. -/
theorem claim_C6_witness :
    newIterator (access_summary { max := PyValue.str "5" }) sampleFactory
        [Except.ok ⟨[PyValue.str "i1"], Option.none⟩] 1 =
      ⟨[], [], Outcome.typeError⟩ :=
  claim_C6_summary_validation sampleFactory { max := PyValue.str "5" }
    [Except.ok ⟨[PyValue.str "i1"], Option.none⟩] 1 (by decide) (by decide)


/-- C1: for any valid `access_summary` call, if the Fetcher returns page
`P1` with a continuation token and then page `P2` with no token, fully
consuming the sequence yields the object factory applied elementwise, in
the order received, to `P1.items ++ P2.items`, with exactly 2 fetches
(the two-element request trace); if the Fetcher returns a single page with
no token, exactly 1 fetch occurs and the sequence is the factory applied
to that page's items in order. -/
theorem claim_C1_page_concatenation (factory : Factory) (a : SummaryArgs)
    (hval : summaryValid a = true) :
    (∀ (P1 P2 : Page) (t : String), P1.next = some t → P2.next = Option.none →
       newIterator (access_summary a) factory [Except.ok P1, Except.ok P2]
           (P1.items.length + P2.items.length + 1) =
         ⟨(P1.items ++ P2.items).map (factory OBJECT_TYPE),
          [initialRequest a, Request.follow t], Outcome.finished⟩) ∧
    (∀ (P : Page), P.next = Option.none →
       newIterator (access_summary a) factory [Except.ok P] (P.items.length + 1) =
         ⟨P.items.map (factory OBJECT_TYPE), [initialRequest a], Outcome.finished⟩) := by
  constructor
  · intro P1 P2 t h1 h2
    have e1 : ¬ (P1.items.length + P2.items.length + 1 ≤ P1.items.length) := by omega
    have e2 : P1.items.length + P2.items.length + 1 - P1.items.length =
        P2.items.length + 1 := by omega
    have e3 : ¬ (P2.items.length + 1 ≤ P2.items.length) := by omega
    simp [newIterator, access_summary, access_summary_iter, hval, get_items,
      if_neg e1, e2, if_neg e3, h1, h2]
  · intro P h1
    have e3 : ¬ (P.items.length + 1 ≤ P.items.length) := by omega
    simp [newIterator, access_summary, access_summary_iter, hval, get_items,
      if_neg e3, h1]

/-- Witness for C1: a two-page script (two items then one item) and a
one-page script, both fully consumed. -/
theorem claim_C1_witness :
    newIterator (access_summary {}) sampleFactory
        [Except.ok ⟨[PyValue.str "i1", PyValue.str "i2"], some "tok"⟩,
         Except.ok ⟨[PyValue.str "i3"], Option.none⟩] 4 =
      ⟨[PyValue.str "i1", PyValue.str "i2", PyValue.str "i3"],
       [initialRequest {}, Request.follow "tok"], Outcome.finished⟩ ∧
    newIterator (access_summary {}) sampleFactory
        [Except.ok ⟨[PyValue.str "i1"], Option.none⟩] 2 =
      ⟨[PyValue.str "i1"], [initialRequest {}], Outcome.finished⟩ := by
  have h := claim_C1_page_concatenation sampleFactory {} (by decide)
  constructor
  · have h1 := h.1 ⟨[PyValue.str "i1", PyValue.str "i2"], some "tok"⟩
      ⟨[PyValue.str "i3"], Option.none⟩ "tok" rfl rfl
    simpa [sampleFactory] using h1
  · have h2 := h.2 ⟨[PyValue.str "i1"], Option.none⟩ rfl
    simpa [sampleFactory] using h2

/-- C2: requesting `n` iterators from the container returned by
`access_summary` performs `n` independent full re-executions: each run is
identical to a single fresh run (so nothing fetched by one iterator is
cached or reused by another), and the total Fetcher call count is exactly
`n` times the call count of one run. -/
theorem claim_C2_linear_reexecution (c : GeneratorContainer) (factory : Factory)
    (script : List (Except ApiErr Page)) (demand n : Nat) :
    totalFetches (iterateRuns c factory script demand n) =
        n * (newIterator c factory script demand).trace.length ∧
    ∀ r ∈ iterateRuns c factory script demand n,
        r = newIterator c factory script demand := by
  induction n with
  | zero => simp [iterateRuns, totalFetches]
  | succ m ih =>
      constructor
      · have : totalFetches (iterateRuns c factory script demand (m + 1)) =
            (newIterator c factory script demand).trace.length +
              totalFetches (iterateRuns c factory script demand m) := by
          simp [iterateRuns, totalFetches]
        rw [this, ih.1, Nat.succ_mul]
        omega
      · intro r hr
        rw [iterateRuns] at hr
        rcases List.mem_cons.mp hr with h | h
        · exact h
        · exact ih.2 r h

/-- Witness for C2: three iterators over a one-page script, each fully
consumed. -/
theorem claim_C2_witness :
    totalFetches (iterateRuns (access_summary {}) sampleFactory
          [Except.ok ⟨[PyValue.str "i1"], Option.none⟩] 2 3) =
        3 * (newIterator (access_summary {}) sampleFactory
          [Except.ok ⟨[PyValue.str "i1"], Option.none⟩] 2).trace.length ∧
    ∀ r ∈ iterateRuns (access_summary {}) sampleFactory
          [Except.ok ⟨[PyValue.str "i1"], Option.none⟩] 2 3,
        r = newIterator (access_summary {}) sampleFactory
          [Except.ok ⟨[PyValue.str "i1"], Option.none⟩] 2 :=
  claim_C2_linear_reexecution (access_summary {}) sampleFactory
    [Except.ok ⟨[PyValue.str "i1"], Option.none⟩] 2 3

/-- C3: calling `access_summary` only constructs the container — a run
that demands no items issues no request at all (the first fetch happens
only when the first item is requested); and for every prefix of the
sequence the consumer demands, the number of page fetches is exactly the
least number of pages needed to produce that prefix — stopping early
fetches nothing further. -/
theorem claim_C3_lazy_fetching (factory : Factory) (a : SummaryArgs) :
    (∀ (script : List (Except ApiErr Page)),
       newIterator (access_summary a) factory script 0 =
         ⟨[], [], Outcome.suspended⟩) ∧
    (∀ (pages : List Page) (d : Nat), summaryValid a = true →
       (∀ p ∈ pages.dropLast, p.next.isSome) → d ≤ totalItems pages →
       (newIterator (access_summary a) factory (pages.map Except.ok) d).trace.length =
         specPagesNeededForPrefix pages d) := by
  constructor
  · intro script
    simp [newIterator, access_summary, access_summary_iter]
  · intro pages d hval hnext hd
    match d with
    | 0 =>
        simp [newIterator, access_summary, access_summary_iter,
          specPagesNeededForPrefix]
    | Nat.succ d2 =>
        have hne : ¬ (d2 + 1 = 0) := by omega
        simp only [newIterator, access_summary, access_summary_iter, hval,
          if_neg hne, if_true]
        exact get_items_lazy pages (initialRequest a) (d2 + 1) hnext hd

/-- Witness for C3: zero demand issues zero fetches; demanding one item of
a two-page script fetches exactly one page. -/
theorem claim_C3_witness :
    newIterator (access_summary {}) sampleFactory
        [Except.ok ⟨[PyValue.str "i1"], some "tok"⟩,
         Except.ok ⟨[PyValue.str "i2"], Option.none⟩] 0 =
      ⟨[], [], Outcome.suspended⟩ ∧
    (newIterator (access_summary {}) sampleFactory
        ([⟨[PyValue.str "i1"], some "tok"⟩,
          (⟨[PyValue.str "i2"], Option.none⟩ : Page)].map Except.ok) 1).trace.length =
      specPagesNeededForPrefix
        [⟨[PyValue.str "i1"], some "tok"⟩, ⟨[PyValue.str "i2"], Option.none⟩] 1 := by
  have h := claim_C3_lazy_fetching sampleFactory {}
  constructor
  · exact h.1 _
  · exact h.2 [⟨[PyValue.str "i1"], some "tok"⟩, ⟨[PyValue.str "i2"], Option.none⟩] 1
      (by decide) (by decide) (by decide)

/-- C7: if the Fetcher errors on the fetch of page `k+1` after pages
`1..k` (all carrying continuation tokens) and the consumer demands more
than their items, the run yields exactly the items of pages `1..k` through
the factory — none lost, none duplicated — performs exactly `k+1` fetches
(no retry), and ends with the Fetcher's error propagated unchanged. -/
theorem claim_C7_error_propagation (factory : Factory) (a : SummaryArgs)
    (e : ApiErr) (pages : List Page) (d : Nat)
    (hval : summaryValid a = true)
    (hnext : ∀ p ∈ pages, p.next.isSome)
    (hd : totalItems pages < d) :
    (newIterator (access_summary a) factory
        (pages.map Except.ok ++ [Except.error e]) d).yielded =
      (pagesItems pages).map (factory OBJECT_TYPE) ∧
    (newIterator (access_summary a) factory
        (pages.map Except.ok ++ [Except.error e]) d).trace.length =
      pages.length + 1 ∧
    (newIterator (access_summary a) factory
        (pages.map Except.ok ++ [Except.error e]) d).outcome =
      Outcome.errored e := by
  have hne : ¬ (d = 0) := by omega
  have hh := get_items_error_after_pages e pages
    (initialRequest a) d hd hnext
  refine ⟨?_, ?_, ?_⟩ <;>
    simp only [newIterator, access_summary, access_summary_iter, hval,
      if_neg hne, if_true, hh.1, hh.2.1, hh.2.2]

/-- Witness for C7: one good page with a token, then a Fetcher error. -/
theorem claim_C7_witness :
    (newIterator (access_summary {}) sampleFactory
        ([(⟨[PyValue.str "i1"], some "tok"⟩ : Page)].map Except.ok ++
          [Except.error "boom"]) 2).yielded =
      (pagesItems [⟨[PyValue.str "i1"], some "tok"⟩]).map (sampleFactory OBJECT_TYPE) ∧
    (newIterator (access_summary {}) sampleFactory
        ([(⟨[PyValue.str "i1"], some "tok"⟩ : Page)].map Except.ok ++
          [Except.error "boom"]) 2).trace.length = 2 ∧
    (newIterator (access_summary {}) sampleFactory
        ([(⟨[PyValue.str "i1"], some "tok"⟩ : Page)].map Except.ok ++
          [Except.error "boom"]) 2).outcome = Outcome.errored "boom" :=
  claim_C7_error_propagation sampleFactory {} "boom"
    [⟨[PyValue.str "i1"], some "tok"⟩] 2 (by decide) (by decide) (by decide)

/-- C8: the container returned by `access_summary` stores its query
specification unmutated (its stored arguments are the original call's), every
iteration with positive demand sends the same initial request — the same
endpoint and the identical parameter mapping built from the original
arguments — and any two iterator requests produce identical executions. -/
theorem claim_C8_immutable_query_spec (a : SummaryArgs) (factory : Factory)
    (script : List (Except ApiErr Page)) (demand : Nat)
    (hval : summaryValid a = true) (hd : 0 < demand) :
    (access_summary a).args = a ∧
    (newIterator (access_summary a) factory script demand).trace.head? =
        some (initialRequest a) ∧
    iterateRuns (access_summary a) factory script demand 2 =
      [newIterator (access_summary a) factory script demand,
       newIterator (access_summary a) factory script demand] := by
  refine ⟨rfl, ?_, rfl⟩
  have hne : ¬ (demand = 0) := by omega
  simp only [newIterator, access_summary, access_summary_iter, hval,
    if_neg hne, if_true]
  exact get_items_trace_head script (initialRequest a) demand hd

/-- Witness for C8 at a concrete container and script. -/
theorem claim_C8_witness :
    (access_summary c5wargs).args = c5wargs ∧
    (newIterator (access_summary c5wargs) sampleFactory
        [Except.ok ⟨[PyValue.str "i1"], Option.none⟩] 1).trace.head? =
      some (initialRequest c5wargs) ∧
    iterateRuns (access_summary c5wargs) sampleFactory
        [Except.ok ⟨[PyValue.str "i1"], Option.none⟩] 1 2 =
      [newIterator (access_summary c5wargs) sampleFactory
        [Except.ok ⟨[PyValue.str "i1"], Option.none⟩] 1,
       newIterator (access_summary c5wargs) sampleFactory
        [Except.ok ⟨[PyValue.str "i1"], Option.none⟩] 1] :=
  claim_C8_immutable_query_spec c5wargs sampleFactory
    [Except.ok ⟨[PyValue.str "i1"], Option.none⟩] 1 (by decide) (by decide)


/-- C5 counterexample: for a call supplying `max=5`, a `from` date and an
unrecognized extra, the parameter mapping sent to the Fetcher contains no
`"max"` key and no `"from"` key at all — the source (lines 119–126 of
`recording_report.py`) writes these values under the keys
`"max_recordings"` and `"_from"` instead of the server's parameter
names. -/
theorem claim_C5_counterexample :
    lookupKey (summaryParams c5args) "max" = Option.none ∧
    lookupKey (summaryParams c5args) "from" = Option.none ∧
    lookupKey (summaryParams c5args) "max_recordings" = some (PyValue.int 5) ∧
    lookupKey (summaryParams c5args) "_from" =
      some (PyValue.str "2020-01-01T00:00:00Z") := by
  decide

/-- C5 (amended): for every `access_summary` call whose extra keyword
parameters do not collide with the five parameter names the method itself
writes (and have no duplicate keys), the parameter mapping sent to the
Fetcher contains the caller's `max` value under the key
`"max_recordings"`, `_from` under `"_from"`, and `to`, `hostEmail`
(defaulting to `"all"` when not supplied) and `siteUrl` under their API
names — each present exactly when its value is not `None`, so absent
parameters are omitted — and contains every unrecognized extra keyword
parameter verbatim (those with `None` values being omitted). -/
theorem claim_C5_parameter_mapping (a : SummaryArgs)
    (hclean : ∀ kv ∈ a.request_parameters, kv.1 ∉ reservedSummaryKeys)
    (hnodup : (a.request_parameters.map Prod.fst).Nodup) :
    (lookupKey (summaryParams a) "max_recordings" =
        if a.max = PyValue.none then Option.none else some a.max) ∧
    (lookupKey (summaryParams a) "_from" =
        if a._from = PyValue.none then Option.none else some a._from) ∧
    (lookupKey (summaryParams a) "to" =
        if a.«to» = PyValue.none then Option.none else some a.«to») ∧
    (lookupKey (summaryParams a) "hostEmail" =
        if a.hostEmail = PyValue.none then Option.none else some a.hostEmail) ∧
    (lookupKey (summaryParams a) "siteUrl" =
        if a.siteUrl = PyValue.none then Option.none else some a.siteUrl) ∧
    (∀ k v, (k, v) ∈ a.request_parameters → v ≠ PyValue.none →
        lookupKey (summaryParams a) k = some v) ∧
    (∀ k, (k, PyValue.none) ∈ a.request_parameters →
        lookupKey (summaryParams a) k = Option.none) := by
  have hbase : ∀ q ∈ reservedSummaryKeys,
      lookupKey (insertItems [] a.request_parameters) q = Option.none := by
    intro q hq
    have hfun : ∀ kv ∈ a.request_parameters, kv.1 ≠ q := by
      intro kv hkv hcon
      refine hclean kv hkv ?_
      rw [hcon]
      exact hq
    rw [lookupKey_insertItems_not_mem a.request_parameters [] q hfun]
    rfl
  have hb1 := hbase "max_recordings" (by decide)
  have hb2 := hbase "_from" (by decide)
  have hb3 := hbase "to" (by decide)
  have hb4 := hbase "hostEmail" (by decide)
  have hb5 := hbase "siteUrl" (by decide)
  refine ⟨?_, ?_, ?_, ?_, ?_, ?_, ?_⟩
  · rw [summaryParams_eq]
    simp only [insertItems_cons, insertItems_nil, lookupKey_step]
    by_cases hm : a.max = PyValue.none <;> simp [hm, hb1]
  · rw [summaryParams_eq]
    simp only [insertItems_cons, insertItems_nil, lookupKey_step]
    by_cases hm : a._from = PyValue.none <;> simp [hm, hb2]
  · rw [summaryParams_eq]
    simp only [insertItems_cons, insertItems_nil, lookupKey_step]
    by_cases hm : a.«to» = PyValue.none <;> simp [hm, hb3]
  · rw [summaryParams_eq]
    simp only [insertItems_cons, insertItems_nil, lookupKey_step]
    by_cases hm : a.hostEmail = PyValue.none <;> simp [hm, hb4]
  · rw [summaryParams_eq]
    simp only [insertItems_cons, insertItems_nil, lookupKey_step]
    by_cases hm : a.siteUrl = PyValue.none <;> simp [hm, hb5]
  · intro k v hmem hv
    have hknr : k ∉ reservedSummaryKeys := hclean (k, v) hmem
    simp only [reservedSummaryKeys, List.mem_cons, List.not_mem_nil, or_false,
      not_or] at hknr
    have hnamed : ∀ kv2 ∈ [("max_recordings", a.max), ("_from", a._from),
        ("to", a.«to»), ("hostEmail", a.hostEmail), ("siteUrl", a.siteUrl)],
        kv2.1 ≠ k := by
      intro kv2 hm2
      simp only [List.mem_cons, List.not_mem_nil, or_false] at hm2
      rcases hm2 with rfl | rfl | rfl | rfl | rfl <;>
        exact fun hcon => by simp [← hcon] at hknr
    rw [summaryParams_eq, lookupKey_insertItems_not_mem _ _ _ hnamed]
    exact lookupKey_insertItems_mem a.request_parameters [] k v hnodup hmem hv
  · intro k hmem
    have hknr : k ∉ reservedSummaryKeys := hclean (k, PyValue.none) hmem
    simp only [reservedSummaryKeys, List.mem_cons, List.not_mem_nil, or_false,
      not_or] at hknr
    have hnamed : ∀ kv2 ∈ [("max_recordings", a.max), ("_from", a._from),
        ("to", a.«to»), ("hostEmail", a.hostEmail), ("siteUrl", a.siteUrl)],
        kv2.1 ≠ k := by
      intro kv2 hm2
      simp only [List.mem_cons, List.not_mem_nil, or_false] at hm2
      rcases hm2 with rfl | rfl | rfl | rfl | rfl <;>
        exact fun hcon => by simp [← hcon] at hknr
    rw [summaryParams_eq, lookupKey_insertItems_not_mem _ _ _ hnamed,
      lookupKey_insertItems_none_val a.request_parameters [] k hnodup hmem]
    rfl

/-- Witness for C5 at a concrete call: `max` unset (omitted), `_from`
set, `hostEmail` left to its `"all"` default, and one unrecognized extra
passed through verbatim. -/
theorem claim_C5_witness :
    lookupKey (summaryParams c5wargs) "max_recordings" = Option.none ∧
    lookupKey (summaryParams c5wargs) "_from" =
        some (PyValue.str "2020-01-01T00:00:00Z") ∧
    lookupKey (summaryParams c5wargs) "hostEmail" = some (PyValue.str "all") ∧
    lookupKey (summaryParams c5wargs) "meetingId" = some (PyValue.str "m1") := by
  have h := claim_C5_parameter_mapping c5wargs (by decide) (by decide)
  refine ⟨?_, ?_, ?_, ?_⟩
  · have h1 := h.1
    simpa [c5wargs] using h1
  · have h2 := h.2.1
    simpa [c5wargs] using h2
  · have h4 := h.2.2.2.1
    simpa [c5wargs] using h4
  · exact h.2.2.2.2.2.1 "meetingId" (PyValue.str "m1") (by decide) (by decide)

end WebexSDK
